import Mathlib

/-!
Shallow embedding of the swipe/reaction/feedback pipeline of the
vinci-scroll (ScrollNet) repository, together with theorems settling the
specification claims about it.

Embedded source locations:
* `frontend/src/components/SwipeVideoPlayer.tsx` — touch gesture
  classification (`onTouchEnd`) and `handleSwipe`;
* `frontend/src/components/VideoFeed.tsx` — `handleVideoReaction`
  (fires the reaction request and counts the video as watched);
* the Home page component (`handleVideoWatched` plus its
  `useEffect` cadence check, in the two observed variants N=10 / N=5);
* `src/services/supabaseService.js` — `recordInteraction`,
  `generateAnonymousUserId`, `isValidUUID`;
* `src/index.js` — the `POST /api/interactions`, `POST /api/feedback`
  and `GET /api/videos` route handlers;
* `database/supabase-schema.sql` — the `user_interactions` table with
  its `UUID` column types, `NOT NULL` and foreign key references to
  `auth.users`/`public.videos`, and the
  `UNIQUE(user_id, video_id, interaction_type)` constraint;
* the `FeedbackModal` component — client side validation in
  `handleSubmit`.

JavaScript strings are modelled as `String` (an absent/falsy string
field is the empty string), timestamps as opaque parameters, JSON
payloads as opaque `String`s, and `Math.random() * 16 | 0` draws as an
explicit list of nibble values threaded through the functions that
consume randomness.
-/

/-! ### Gesture classification (SwipeVideoPlayer.tsx) -/

/-- The three swipe directions that `onTouchEnd` can hand to `handleSwipe`. -/
inductive SwipeDir where
  | left
  | right
  | up
deriving DecidableEq, Repr

/-- The gesture classification performed in the `onTouchEnd` handler of
`SwipeVideoPlayer.tsx`:

```
if (Math.abs(deltaX) > Math.abs(deltaY) && Math.abs(deltaX) > 50) {
  handleSwipe(deltaX > 0 ? 'right' : 'left')
} else if (deltaY < -100) {
  handleSwipe('up')
}
```

Coordinates are logical pixels, modelled as integers; `none` means no
`handleSwipe` call happens (the gesture is ignored). -/
def classifyTouch (deltaX deltaY : Int) : Option SwipeDir :=
  if |deltaX| > |deltaY| ∧ |deltaX| > 50 then
    some (if deltaX > 0 then .right else .left)
  else if deltaY < -100 then
    some .up
  else
    none

/-- Reaction types as sent by `onVideoReaction`. -/
inductive Reaction where
  | like
  | dislike
  | emoji
deriving DecidableEq, Repr

/-- The reaction (if any) that `handleSwipe` in `SwipeVideoPlayer.tsx`
emits for a swipe direction: `left` → dislike, `right` → like, `up` →
only advances to the next video, emitting no reaction. -/
def handleSwipeReaction : SwipeDir → Option Reaction
  | .left => some .dislike
  | .right => some .like
  | .up => none

/-! ### Feedback cadence (Home page `handleVideoWatched`) -/

/-- Client-side state of the Home page component that owns the
feedback cadence: `videosWatched` counter, the `showFeedback` modal
flag, and the `feedbackVideo` target. -/
structure HomeState where
  videosWatched : Nat
  showFeedback : Bool
  feedbackVideo : Option String
deriving DecidableEq, Repr

/-- Initial Home page state. -/
def initialHome : HomeState := ⟨0, false, none⟩

/-- One call of `handleVideoWatched(videoId)` on the Home page, with the
`useEffect` on `videosWatched` applied to the updated count.  The code
(N is the cadence constant, 10 in one variant and 5 in the other):

```
setVideosWatched(prev => prev + 1)
if ((videosWatched + 1) % N === 0) { setFeedbackVideo(videoId) }
-- useEffect([videosWatched]):
if (videosWatched > 0 && videosWatched % N === 0) { setShowFeedback(true) }
```

Returns the new state together with whether this call made the
feedback effect fire (`setShowFeedback(true)`). -/
def handleVideoWatched (N : Nat) (s : HomeState) (videoId : String) :
    HomeState × Bool :=
  let newCount := s.videosWatched + 1
  let fires := decide (newCount > 0) && (newCount % N == 0)
  (⟨newCount,
    s.showFeedback || fires,
    if (s.videosWatched + 1) % N == 0 then some videoId else s.feedbackVideo⟩,
   fires)

/-- Home state after `k` calls of `handleVideoWatched` (cadence `N`),
all on the same placeholder video id. -/
def homeAfter (N : Nat) : Nat → HomeState
  | 0 => initialHome
  | k + 1 => (handleVideoWatched N (homeAfter N k) "v").1

/-- Whether the `(k+1)`-th call of `handleVideoWatched` fires the
feedback effect. -/
def homeFires (N k : Nat) : Bool :=
  (handleVideoWatched N (homeAfter N k) "v").2

/-- Modelled from the spec (§4.5 Feedback Cadence Tracker): a counter of
videos consumed since the last feedback prompt that fires exactly when
it reaches the cadence `N` and resets to zero immediately after firing.
One step returns the new counter and the fired flag. -/
def specTrackerStep (N c : Nat) : Nat × Bool :=
  if c + 1 == N then (0, true) else (c + 1, false)

/-- Modelled from the spec: counter value and last fired flag of the
spec's resetting cadence tracker after `k` calls. -/
def specTrackerAfter (N : Nat) : Nat → Nat × Bool
  | 0 => (0, false)
  | k + 1 => specTrackerStep N (specTrackerAfter N k).1

/-! ### Interaction store (supabaseService.js, supabase-schema.sql) -/

/-- Lower-case hexadecimal digit test, as used by the character classes
`[0-9a-f]` of the case-insensitive UUID regular expression. -/
def isHexLower (c : Char) : Bool :=
  c.isDigit || ('a' ≤ c && c ≤ 'f')

/-- Per-position character test of the UUID regular expression
`^[0-9a-f]{8}-[0-9a-f]{4}-[1-5][0-9a-f]{3}-[89ab][0-9a-f]{3}-[0-9a-f]{12}$`
(flag `i`): hyphens at indices 8, 13, 18 and 23, a version digit `1`-`5`
at index 14, a variant character in `[89ab]` at index 19, hexadecimal
digits elsewhere. -/
def uuidCharOk (i : Nat) (c : Char) : Bool :=
  if i == 8 || i == 13 || i == 18 || i == 23 then c == '-'
  else if i == 14 then '1' ≤ c && c ≤ '5'
  else if i == 19 then
    c.toLower == '8' || c.toLower == '9' || c.toLower == 'a' || c.toLower == 'b'
  else isHexLower c.toLower

/-- `SupabaseService.isValidUUID`: the string matches the anchored
case-insensitive UUID regular expression above. -/
def isValidUUID (s : String) : Bool :=
  s.length == 36 && s.toList.enum.all fun p => uuidCharOk p.1 p.2

/-- `SupabaseService.generateAnonymousUserId`, character by character:
the template `xxxxxxxx-xxxx-4xxx-yxxx-xxxxxxxxxxxx` with every `x`
replaced by a random nibble rendered in hexadecimal and every `y` by
`(r & 0x3 | 0x8)` of a random nibble.  `rng` is the stream of
`Math.random() * 16 | 0` draws, consumed one per replaced character. -/
def replaceUuidChars : List Char → List Nat → List Char
  | [], _ => []
  | c :: cs, rng =>
    if c == 'x' then
      Nat.digitChar (rng.headD 0 % 16) :: replaceUuidChars cs rng.tail
    else if c == 'y' then
      Nat.digitChar ((rng.headD 0 % 16 &&& 0x3) ||| 0x8) :: replaceUuidChars cs rng.tail
    else
      c :: replaceUuidChars cs rng

/-- `SupabaseService.generateAnonymousUserId` applied to a stream of
random nibble draws. -/
def generateAnonymousUserId (rng : List Nat) : String :=
  String.mk (replaceUuidChars "xxxxxxxx-xxxx-4xxx-yxxx-xxxxxxxxxxxx".toList rng)

/-- One row of the `user_interactions` table
(`database/supabase-schema.sql`).  The JSONB payload and the timestamp
are opaque. -/
structure InteractionRow where
  user_id : String
  video_id : String
  interaction_type : String
  interaction_data : String
  created_at : Nat
deriving DecidableEq, Repr

/-- Whether a row belongs to the triple `(user, video, type)` — the key
of the `UNIQUE(user_id, video_id, interaction_type)` constraint of
`user_interactions`. -/
def matchesTriple (u v ty : String) (r : InteractionRow) : Bool :=
  r.user_id == u && r.video_id == v && r.interaction_type == ty

/-- Whether the table already holds a row for the triple. -/
def hasTriple (table : List InteractionRow) (u v ty : String) : Bool :=
  table.any (matchesTriple u v ty)

/-- The rows of the table belonging to the triple. -/
def rowsForTriple (table : List InteractionRow) (u v ty : String) :
    List InteractionRow :=
  table.filter (matchesTriple u v ty)

/-- PostgreSQL acceptance of a string literal for the `UUID` column
type (canonical hyphenated form): 36 characters, hyphens at indices 8,
13, 18 and 23, case-insensitive hexadecimal digits elsewhere.  Unlike
the application-level `isValidUUID` regular expression, the column type
imposes no version or variant restriction. -/
def pgIsUuid (s : String) : Bool :=
  s.length == 36 && s.toList.enum.all fun p =>
    if p.1 == 8 || p.1 == 13 || p.1 == 18 || p.1 == 23 then p.2 == '-'
    else isHexLower p.2.toLower

/-- The database `INSERT` into `user_interactions`, with the column
types and constraints of `database/supabase-schema.sql`:

```
user_id UUID REFERENCES auth.users(id) NOT NULL,
video_id UUID REFERENCES public.videos(id) NOT NULL,
interaction_type VARCHAR(20) NOT NULL,
UNIQUE(user_id, video_id, interaction_type)
```

`authUsers` is the set of ids in `auth.users`, `videos` the set of ids
in `public.videos`.  The insert errors when the store is unreachable,
when `user_id`/`video_id` do not parse as the `UUID` column type, when
`interaction_type` exceeds `VARCHAR(20)`, when a foreign key reference
is unmet, or when the `UNIQUE` triple constraint is violated; every
error leaves the table unchanged.  (The `NOT NULL` constraints cannot
trip here: the service always supplies all three columns, and an empty
string is not SQL `NULL`.) -/
def dbInsertInteraction (avail : Bool) (authUsers videos : List String)
    (table : List InteractionRow) (row : InteractionRow) :
    Except String (List InteractionRow) :=
  if !avail then
    .error "store unreachable"
  else if !pgIsUuid row.user_id || !pgIsUuid row.video_id then
    .error "invalid input syntax for type uuid"
  else if row.interaction_type.length > 20 then
    .error "value too long for type character varying(20)"
  else if !authUsers.contains row.user_id then
    .error "violates foreign key constraint user_interactions_user_id_fkey"
  else if !videos.contains row.video_id then
    .error "violates foreign key constraint user_interactions_video_id_fkey"
  else if hasTriple table row.user_id row.video_id row.interaction_type then
    .error "duplicate key value violates unique constraint"
  else
    .ok (table ++ [row])

/-- The value `recordInteraction` resolves with: either the inserted
row, or the MVP fallback object
`\x7b success: true, message: 'Interaction logged (MVP mode)', fallback: true \x7d`
returned from the catch block. -/
inductive RecordResult where
  | row (r : InteractionRow)
  | fallback
deriving DecidableEq, Repr

/-- `SupabaseService.recordInteraction(userId, videoId, interactionType,
interactionData)`:

```
let finalUserId = userId;
if (!userId || userId === 'anonymous-user' || !this.isValidUUID(userId)) {
  finalUserId = this.generateAnonymousUserId();
}
insert(\x7b user_id: finalUserId, video_id, interaction_type,
        interaction_data, created_at \x7d)
// catch: return \x7b success: true, ... fallback: true \x7d
```

`avail` is whether the backing store is reachable, `authUsers` and
`videos` the referenced tables' ids, `rng` the random nibble stream
consumed by `generateAnonymousUserId`, `now` the timestamp.  Returns
the table after the call and the resolved value. -/
def recordInteraction (avail : Bool) (authUsers videos : List String)
    (table : List InteractionRow)
    (userId videoId interactionType interactionData : String)
    (rng : List Nat) (now : Nat) : List InteractionRow × RecordResult :=
  let finalUserId :=
    if userId == "" || userId == "anonymous-user" || !isValidUUID userId then
      generateAnonymousUserId rng
    else
      userId
  let row : InteractionRow :=
    ⟨finalUserId, videoId, interactionType, interactionData, now⟩
  match dbInsertInteraction avail authUsers videos table row with
  | .ok t => (t, .row row)
  | .error _ => (table, .fallback)

/-! ### REST layer (src/index.js) -/

/-- The observable shape of a JSON response of the interaction and
feedback endpoints: HTTP status and the `success` flag of the body. -/
structure ApiResponse where
  status : Nat
  success : Bool
deriving DecidableEq, Repr

/-- The `POST /api/interactions` route handler:

```
const \x7b userId, videoId, type, data \x7d = req.body;
if (!userId || !videoId || !type) return 400 \x7b success: false \x7d;
await supabaseService.recordInteraction(userId, videoId, type, data ?? \x7b\x7d);
res.json(\x7b success: true, ... \x7d);
// catch: res.json(\x7b success: true, fallback: true \x7d)
```

Absent/falsy body fields are the empty string.  Returns the table after
the request and the response. -/
def postInteractions (avail : Bool) (authUsers videos : List String)
    (table : List InteractionRow)
    (userId videoId ty data : String) (rng : List Nat) (now : Nat) :
    List InteractionRow × ApiResponse :=
  if userId == "" || videoId == "" || ty == "" then
    (table, ⟨400, false⟩)
  else
    let r := recordInteraction avail authUsers videos table userId videoId ty
      data rng now
    (r.1, ⟨200, true⟩)

/-- One row of the `feedback` table as built by `POST /api/feedback`. -/
structure FeedbackRow where
  video_id : String
  user_id : String
  what_did_you_see : String
  why_did_you_react : String
  created_at : String
deriving DecidableEq, Repr

/-- A `POST /api/feedback` request body, together with the identity of
any authenticated user of the session.  The route handler reads only
`videoId`, `whatDidYouSee`, `whyDidYouReact` and `timestamp` from the
body; `authUserId` models the authenticated user that may exist on the
client and is never transmitted nor consulted. -/
structure FeedbackRequest where
  videoId : String
  whatDidYouSee : String
  whyDidYouReact : String
  timestamp : String
  authUserId : Option String
deriving DecidableEq, Repr

/-- The `POST /api/feedback` route handler:

```
const \x7b videoId, whatDidYouSee, whyDidYouReact, timestamp \x7d = req.body;
if (!whatDidYouSee || !whyDidYouReact) return 400 \x7b success: false \x7d;
const feedbackData = \x7b video_id: videoId, user_id: 'anonymous-user',
  what_did_you_see, why_did_you_react, created_at: timestamp || now \x7d;
await supabaseService.submitFeedback(feedbackData);
res.json(\x7b success: true, ... \x7d);
// catch: res.json(\x7b success: true, fallback: true \x7d)
```

`avail` is whether the store insert succeeds; on failure no row is
stored and the fallback success response is returned.  Returns the
response and the stored row, if any. -/
def postFeedback (avail : Bool) (req : FeedbackRequest) (now : String) :
    ApiResponse × Option FeedbackRow :=
  if req.whatDidYouSee == "" || req.whyDidYouReact == "" then
    (⟨400, false⟩, none)
  else
    let row : FeedbackRow :=
      ⟨req.videoId, "anonymous-user", req.whatDidYouSee, req.whyDidYouReact,
       if req.timestamp == "" then now else req.timestamp⟩
    if avail then (⟨200, true⟩, some row) else (⟨200, true⟩, none)

/-! ### Feedback modal (FeedbackModal.tsx, two-question variant) -/

/-- The `feedback` state of the `FeedbackModal` component: the two
free-form answers. -/
structure FeedbackForm where
  whatDidYouSee : String
  whyDidYouReact : String
deriving DecidableEq, Repr

/-- JavaScript `String.prototype.trim`: strip leading and trailing
whitespace. -/
def jsTrim (s : String) : String :=
  String.mk
    (((s.toList.dropWhile Char.isWhitespace).reverse.dropWhile
        Char.isWhitespace).reverse)

/-- Outcome of `FeedbackModal.handleSubmit`: either blocked client side
before any network request (the alert path), or a network submission
carrying the request body. -/
inductive SubmitOutcome where
  | blocked
  | submitted (req : FeedbackRequest)
deriving DecidableEq, Repr

/-- `FeedbackModal.handleSubmit`:

```
if (!feedback.whatDidYouSee.trim() || !feedback.whyDidYouReact.trim()) {
  alert('Please answer both questions before submitting.'); return;
}
await fetch(API_URLS.FEEDBACK, \x7b body: \x7b videoId, whatDidYouSee,
  whyDidYouReact, timestamp \x7d \x7d)
```

The modal sends no identity field; `authUserId` of the produced request
records the session's authenticated user only for bookkeeping. -/
def feedbackModalSubmit (videoId : String) (f : FeedbackForm) (now : String)
    (authUserId : Option String) : SubmitOutcome :=
  if jsTrim f.whatDidYouSee == "" || jsTrim f.whyDidYouReact == "" then
    .blocked
  else
    .submitted ⟨videoId, f.whatDidYouSee, f.whyDidYouReact, now, authUserId⟩

/-! ### Video feed endpoint (GET /api/videos in src/index.js) -/

/-- A video descriptor as returned by `GET /api/videos`. -/
structure VideoOut where
  id : String
  title : String
  description : String
  url : String
  duration : Nat
  tags : List String
  uploader : String
deriving DecidableEq, Repr

/-- The five hard-coded `mockVideos` of the catch branch of
`GET /api/videos`. -/
def mockVideos : List VideoOut :=
  [⟨"video-1", "Product Demo Video",
    "A demonstration of our latest product features",
    "https://commondatastorage.googleapis.com/gtv-videos-bucket/sample/BigBuckBunny.mp4",
    596, ["demo", "product"], "Demo User"⟩,
   ⟨"video-2", "Tutorial: Getting Started",
    "Learn how to get started with our platform",
    "https://commondatastorage.googleapis.com/gtv-videos-bucket/sample/ElephantsDream.mp4",
    653, ["tutorial", "beginner"], "Tutorial Team"⟩,
   ⟨"video-3", "Advanced Features Overview",
    "Explore advanced features and capabilities",
    "https://commondatastorage.googleapis.com/gtv-videos-bucket/sample/ForBiggerBlazes.mp4",
    15, ["advanced", "features"], "Expert User"⟩,
   ⟨"video-4", "User Success Stories",
    "Real stories from our community",
    "https://commondatastorage.googleapis.com/gtv-videos-bucket/sample/ForBiggerEscapes.mp4",
    15, ["success", "community"], "Community Team"⟩,
   ⟨"video-5", "Platform Updates",
    "Latest updates and improvements",
    "https://commondatastorage.googleapis.com/gtv-videos-bucket/sample/ForBiggerFun.mp4",
    60, ["updates", "news"], "Development Team"⟩]

/-- JavaScript `Array.prototype.slice(start, end)` for non-negative
indices. -/
def jsSlice (xs : List VideoOut) (start stop : Nat) : List VideoOut :=
  (xs.drop start).take (stop - start)

/-- The JSON body of a `GET /api/videos` response: the `success` flag,
the video list, the `hasMore` pagination flag, and whether the
`fallback: true` marker is present. -/
structure VideosResponse where
  success : Bool
  videos : List VideoOut
  hasMore : Bool
  fallback : Bool
deriving DecidableEq, Repr

/-- The `GET /api/videos` route handler.  `storeResult` is the outcome
of `supabaseService.getVideoFeed` (the already-transformed rows, or the
thrown error).  On success the handler returns the rows with
`hasMore = (videos.length === limit)`; on any error it falls back to

```
res.json(\x7b success: true,
  videos: mockVideos.slice(offsetNum, offsetNum + limitNum),
  pagination: \x7b ..., hasMore: false \x7d, fallback: true, ... \x7d)
``` -/
def getVideos (storeResult : Except String (List VideoOut))
    (limit offset : Nat) : VideosResponse :=
  match storeResult with
  | .ok vids => ⟨true, vids, vids.length == limit, false⟩
  | .error _ => ⟨true, jsSlice mockVideos offset (offset + limit), false, true⟩

/-! ### Client-side pipeline composition (VideoFeed.tsx + Home page) -/

/-- Client-visible session state of the composed pipeline: the Home
page cadence state plus the ordered list of reaction events the client
has emitted, as `(videoId, type)` pairs. -/
structure SessionState where
  home : HomeState
  events : List (String × String)
deriving DecidableEq, Repr

/-- Initial session state. -/
def initialSession : SessionState := ⟨initialHome, []⟩

/-- The string sent as the interaction `type` for a reaction. -/
def reactionType : Reaction → String
  | .like => "like"
  | .dislike => "dislike"
  | .emoji => "emoji"

/-- `handleSwipe` of `SwipeVideoPlayer.tsx` composed with
`handleVideoReaction` of `VideoFeed.tsx` and `handleVideoWatched` of the
Home page (cadence `N`): a `left`/`right` swipe calls
`onVideoReaction` — which issues the reaction request and then calls
`onVideoWatched(videoId)` — while an `up` swipe only advances to the
next video, emitting no reaction and not counting the video as
watched. -/
def handleSwipeStep (N : Nat) (s : SessionState) (videoId : String)
    (dir : SwipeDir) : SessionState :=
  match handleSwipeReaction dir with
  | some r =>
    ⟨(handleVideoWatched N s.home videoId).1,
     s.events ++ [(videoId, reactionType r)]⟩
  | none => s

/-- A raw touch gesture on a video, classified by `classifyTouch` and
dispatched through `handleSwipeStep`; unrecognised gestures leave the
session unchanged. -/
def processTouch (N : Nat) (s : SessionState) (videoId : String)
    (deltaX deltaY : Int) : SessionState :=
  match classifyTouch deltaX deltaY with
  | some dir => handleSwipeStep N s videoId dir
  | none => s

/-- The end-to-end scenario of the spec: a right swipe on `V1`, a left
swipe on `V2`, and up swipes on `V3`, `V4`, `V5`, as concrete touch
gestures. -/
def scenarioGestures : List (String × Int × Int) :=
  [("V1", 150, 0), ("V2", -150, 0), ("V3", 0, -150), ("V4", 0, -150),
   ("V5", 0, -150)]

/-- Running the end-to-end scenario from the initial session state with
cadence `N`. -/
def runScenario (N : Nat) : SessionState :=
  scenarioGestures.foldl
    (fun s g => processTouch N s g.1 g.2.1 g.2.2) initialSession



/-! ### Helper lemmas -/

theorem mod_succ_shift (k N : Nat) : (k + 1) % N = (k % N + 1) % N := by
  conv_lhs => rw [← Nat.mod_add_div k N]
  rw [Nat.add_right_comm]
  exact Nat.add_mul_mod_self_left _ _ _

theorem homeAfter_count (N k : Nat) : (homeAfter N k).videosWatched = k := by
  induction k with
  | zero => rfl
  | succ k ih => simp [homeAfter, handleVideoWatched, ih]

theorem homeFires_eq (N k : Nat) : homeFires N k = ((k + 1) % N == 0) := by
  unfold homeFires handleVideoWatched
  simp [homeAfter_count]

theorem specTrackerAfter_counter (N : Nat) (hN : 0 < N) (k : Nat) :
    (specTrackerAfter N k).1 = k % N := by
  induction k with
  | zero => simp [specTrackerAfter]
  | succ k ih =>
    show (specTrackerStep N (specTrackerAfter N k).1).1 = (k + 1) % N
    rw [ih]
    unfold specTrackerStep
    by_cases h : k % N + 1 = N
    · simp only [h, beq_self_eq_true, if_pos]
      rw [mod_succ_shift, h, Nat.mod_self]
    · have hb : (k % N + 1 == N) = false := by simpa using h
      simp only [hb, Bool.false_eq_true, if_false]
      rw [mod_succ_shift]
      have hlt : k % N + 1 < N :=
        lt_of_le_of_ne (Nat.succ_le_of_lt (Nat.mod_lt k hN)) h
      exact (Nat.mod_eq_of_lt hlt).symm

/-! ### Claim C4 — classifier on dominant horizontal gestures -/

/-- C4 counterexample: at the boundary `|Δx| = T = 50` (with `Δy = 0`,
so `|Δx| ≥ |Δy|` and `Δx > 0`), the claim asserts the gesture is
classified `like`, but `classifyTouch` classifies nothing: the code
requires the strict inequality `|Δx| > 50`. -/
theorem classifyTouch_boundary_counterexample :
    |(50 : Int)| ≥ 50 ∧ |(50 : Int)| ≥ |(0 : Int)| ∧ (0 : Int) < 50 ∧
    classifyTouch 50 0 = none := by decide

/-- C4 (amended): for every gesture vector with `|Δx| > |Δy|` and
`|Δx| > T` (both strict, `T = 50`), the classifier emits the `right`
(like) swipe iff `Δx > 0` and the `left` (dislike) swipe iff
`Δx < 0`. -/
theorem classifyTouch_dominant_horizontal (dx dy : Int)
    (hdom : |dx| > |dy|) (hth : |dx| > 50) :
    (classifyTouch dx dy = some .right ↔ 0 < dx) ∧
    (classifyTouch dx dy = some .left ↔ dx < 0) := by
  have hcond : |dx| > |dy| ∧ |dx| > 50 := ⟨hdom, hth⟩
  have hne : dx ≠ 0 := by
    intro h
    rw [h] at hth
    simp at hth
  unfold classifyTouch
  rw [if_pos hcond]
  by_cases h : dx > 0
  · rw [if_pos h]
    constructor
    · exact ⟨fun _ => h, fun _ => rfl⟩
    · constructor
      · intro heq
        exact absurd (Option.some.inj heq) (by intro hc; cases hc)
      · intro hlt
        exact absurd h (by omega)
  · rw [if_neg h]
    have hlt : dx < 0 := by
      rcases lt_trichotomy dx 0 with h1 | h1 | h1
      · exact h1
      · exact absurd h1 hne
      · exact absurd h1 h
    constructor
    · constructor
      · intro heq
        exact absurd (Option.some.inj heq) (by intro hc; cases hc)
      · intro hgt
        exact absurd hgt h
    · exact ⟨fun _ => hlt, fun _ => rfl⟩

/-- C4 witness: the amended theorem at the concrete gesture
`(Δx, Δy) = (150, 20)`. -/
theorem classifyTouch_dominant_horizontal_witness :
    |(150 : Int)| > |(20 : Int)| ∧ |(150 : Int)| > 50 ∧
    (classifyTouch 150 20 = some .right ↔ (0 : Int) < 150) :=
  ⟨by decide, by decide,
   (classifyTouch_dominant_horizontal 150 20 (by decide) (by decide)).1⟩

/-! ### Claim C5 — diagonal tie-break -/

/-- C5 counterexample: the exact diagonal tie `(Δx, Δy) = (200, -200)`
has `|Δx| = |Δy|` and `|Δx| > 50`, yet is classified as the `up`
(next) swipe, not as a horizontal like/dislike: the dominant-axis test
`|Δx| > |Δy|` is strict, so a tie never takes the horizontal branch. -/
theorem classifyTouch_tie_counterexample :
    |(200 : Int)| = |(-200 : Int)| ∧ |(200 : Int)| > 50 ∧
    classifyTouch 200 (-200) = some .up := by decide

/-- C5 (amended): on an exact diagonal tie `|Δx| = |Δy|` (with
`|Δx| > T`), the classifier never returns a horizontal like/dislike: it
returns the `up` (next) swipe iff `Δy < -100`, and otherwise no event
at all. -/
theorem classifyTouch_tie_vertical (dx dy : Int)
    (htie : |dx| = |dy|) (hth : |dx| > 50) :
    classifyTouch dx dy ≠ some .right ∧ classifyTouch dx dy ≠ some .left ∧
    (classifyTouch dx dy = some .up ↔ dy < -100) := by
  have hnot : ¬(|dx| > |dy| ∧ |dx| > 50) := by
    rintro ⟨h1, _⟩
    rw [htie] at h1
    exact lt_irrefl _ h1
  unfold classifyTouch
  rw [if_neg hnot]
  by_cases h2 : dy < -100
  · rw [if_pos h2]
    refine ⟨?_, ?_, by simp [h2]⟩
    · intro heq
      exact absurd (Option.some.inj heq) (by intro hc; cases hc)
    · intro heq
      exact absurd (Option.some.inj heq) (by intro hc; cases hc)
  · rw [if_neg h2]
    exact ⟨by simp, by simp, by simp [h2]⟩

/-- C5 witness: the amended theorem at the concrete tie
`(Δx, Δy) = (60, 60)` (a downward-right diagonal), which produces no
event at all. -/
theorem classifyTouch_tie_vertical_witness :
    |(60 : Int)| = |(60 : Int)| ∧ |(60 : Int)| > 50 ∧
    ¬classifyTouch 60 60 = some .up :=
  ⟨by decide, by decide,
   fun h =>
     absurd ((classifyTouch_tie_vertical 60 60 (by decide) (by decide)).2.2.mp h)
       (by decide)⟩

/-! ### Claim C3 — feedback cadence -/

/-- C3: with cadence `N > 0`, the Home page feedback trigger fires on
exactly the calls where the spec's resetting per-session counter
reaches `N` (the code's monotonic `videosWatched % N` counter refines
the spec's reset-to-zero counter); in particular the `N`-th call to
`handleVideoWatched` fires, calls `N+1` through `2N-1` do not, and call
`2N` fires again. -/
theorem cadence_fires_on_schedule (N : Nat) (hN : 0 < N) :
    (∀ k, (homeAfter N k).videosWatched % N = (specTrackerAfter N k).1 ∧
          homeFires N k = (specTrackerAfter N (k + 1)).2) ∧
    homeFires N (N - 1) = true ∧
    (∀ j, N < j → j < 2 * N → homeFires N (j - 1) = false) ∧
    homeFires N (2 * N - 1) = true := by
  have hfires : ∀ k, homeFires N k = ((k + 1) % N == 0) := homeFires_eq N
  refine ⟨fun k => ⟨?_, ?_⟩, ?_, ?_, ?_⟩
  · rw [homeAfter_count, specTrackerAfter_counter N hN]
  · show homeFires N k = (specTrackerStep N (specTrackerAfter N k).1).2
    rw [hfires, specTrackerAfter_counter N hN]
    unfold specTrackerStep
    by_cases h : k % N + 1 = N
    · have h0 : (k + 1) % N = 0 := by
        rw [mod_succ_shift, h, Nat.mod_self]
      simp [h, h0]
    · have hlt : k % N + 1 < N :=
        lt_of_le_of_ne (Nat.succ_le_of_lt (Nat.mod_lt k hN)) h
      have h0 : (k + 1) % N = k % N + 1 := by
        rw [mod_succ_shift]
        exact Nat.mod_eq_of_lt hlt
      have hne : (k + 1) % N ≠ 0 := by omega
      simp [h, hne]
  · rw [hfires]
    have h1 : N - 1 + 1 = N := by omega
    rw [h1, Nat.mod_self]
    rfl
  · intro j hj1 hj2
    rw [hfires]
    have h1 : j - 1 + 1 = j := by omega
    rw [h1]
    have h2 : j = N + (j - N) := by omega
    rw [h2, Nat.add_mod_left]
    have h3 : j - N < N := by omega
    rw [Nat.mod_eq_of_lt h3]
    have h4 : j - N ≠ 0 := by omega
    simpa using h4
  · rw [hfires]
    have h1 : 2 * N - 1 + 1 = 2 * N := by omega
    rw [h1, Nat.mul_mod_left]
    rfl

/-- C3 witness: the cadence theorem at `N = 5` — the 5th call fires,
the 7th does not, the 10th fires again. -/
theorem cadence_fires_on_schedule_witness :
    0 < 5 ∧ homeFires 5 (5 - 1) = true ∧ homeFires 5 (7 - 1) = false ∧
    homeFires 5 (2 * 5 - 1) = true :=
  ⟨by decide,
   (cadence_fires_on_schedule 5 (by decide)).2.1,
   (cadence_fires_on_schedule 5 (by decide)).2.2.1 7 (by decide) (by decide),
   (cadence_fires_on_schedule 5 (by decide)).2.2.2⟩

/-! ### Claim C1 — interaction "upsert" -/

theorem validUUID_guard_false (u : String) (hu : isValidUUID u = true) :
    (u == "" || u == "anonymous-user" || !isValidUUID u) = false := by
  have h1 : (u == "") = false := by
    rcases h : u == "" with _ | _
    · rfl
    · exfalso
      have he : u = "" := by simpa using h
      rw [he] at hu
      exact absurd hu (by decide)
  have h2 : (u == "anonymous-user") = false := by
    rcases h : u == "anonymous-user" with _ | _
    · rfl
    · exfalso
      have he : u = "anonymous-user" := by simpa using h
      rw [he] at hu
      exact absurd hu (by decide)
  rw [h1, h2, hu]
  rfl

theorem dbInsertInteraction_ok_of (authUsers videos : List String)
    (table : List InteractionRow) (row : InteractionRow)
    (hpu : pgIsUuid row.user_id = true) (hpv : pgIsUuid row.video_id = true)
    (hlen : row.interaction_type.length ≤ 20)
    (hreg : authUsers.contains row.user_id = true)
    (hvid : videos.contains row.video_id = true)
    (hnew : hasTriple table row.user_id row.video_id row.interaction_type
      = false) :
    dbInsertInteraction true authUsers videos table row
      = .ok (table ++ [row]) := by
  have hreg2 : row.user_id ∈ authUsers := by simpa using hreg
  have hvid2 : row.video_id ∈ videos := by simpa using hvid
  unfold dbInsertInteraction
  simp [hpu, hpv, hreg2, hvid2, hnew, Nat.not_lt.mpr hlen]

theorem dbInsertInteraction_dup_of (authUsers videos : List String)
    (table : List InteractionRow) (row : InteractionRow)
    (hpu : pgIsUuid row.user_id = true) (hpv : pgIsUuid row.video_id = true)
    (hlen : row.interaction_type.length ≤ 20)
    (hreg : authUsers.contains row.user_id = true)
    (hvid : videos.contains row.video_id = true)
    (hdup : hasTriple table row.user_id row.video_id row.interaction_type
      = true) :
    dbInsertInteraction true authUsers videos table row
      = .error "duplicate key value violates unique constraint" := by
  have hreg2 : row.user_id ∈ authUsers := by simpa using hreg
  have hvid2 : row.video_id ∈ videos := by simpa using hvid
  unfold dbInsertInteraction
  simp [hpu, hpv, hreg2, hvid2, hdup, Nat.not_lt.mpr hlen]

/-- C1 counterexample: identity
`00000000-0000-4000-8000-000000000000` (valid UUID format, registered
in `auth.users`), existing video `11111111-1111-1111-1111-111111111111`,
type `like`; a first `recordInteraction` with payload `p1` followed by a
second with payload `p2` leaves exactly one stored row for the triple —
but that row carries the payload and timestamp of the FIRST call, not
of the latest as the claim states: the second insert is rejected by the
unique constraint and swallowed. -/
theorem recordInteraction_counterexample :
    rowsForTriple
        (recordInteraction true ["00000000-0000-4000-8000-000000000000"]
          ["11111111-1111-1111-1111-111111111111"]
          ((recordInteraction true ["00000000-0000-4000-8000-000000000000"]
              ["11111111-1111-1111-1111-111111111111"] []
              "00000000-0000-4000-8000-000000000000"
              "11111111-1111-1111-1111-111111111111" "like" "p1" [] 1).1)
          "00000000-0000-4000-8000-000000000000"
          "11111111-1111-1111-1111-111111111111" "like" "p2" [] 2).1
        "00000000-0000-4000-8000-000000000000"
        "11111111-1111-1111-1111-111111111111" "like"
      = [⟨"00000000-0000-4000-8000-000000000000",
          "11111111-1111-1111-1111-111111111111", "like", "p1", 1⟩] ∧
    ("p1" : String) ≠ "p2" := by decide

/-- C1 (amended): for an identity in valid UUID format that is
registered in `auth.users`, an existing video id, an interaction type
within `VARCHAR(20)`, and a triple not yet stored, a second
`recordInteraction` call with a different payload leaves exactly one
stored row for the triple — but the row keeps the payload and timestamp
of the first call, and the second call resolves with the
swallowed-error fallback success instead of updating it (the code
inserts rather than upserts; the unique constraint rejects the
duplicate). -/
theorem recordInteraction_no_duplicate_first_payload
    (authUsers videos : List String) (table : List InteractionRow)
    (u v ty p1 p2 : String) (rng1 rng2 : List Nat) (t1 t2 : Nat)
    (hu : isValidUUID u = true)
    (hpu : pgIsUuid u = true) (hpv : pgIsUuid v = true)
    (hlen : ty.length ≤ 20)
    (hreg : authUsers.contains u = true)
    (hvid : videos.contains v = true)
    (hnew : hasTriple table u v ty = false) :
    rowsForTriple
        (recordInteraction true authUsers videos
          ((recordInteraction true authUsers videos table u v ty p1 rng1
              t1).1)
          u v ty p2 rng2 t2).1 u v ty
      = [⟨u, v, ty, p1, t1⟩] ∧
    (recordInteraction true authUsers videos
        ((recordInteraction true authUsers videos table u v ty p1 rng1 t1).1)
        u v ty p2 rng2 t2).2 = RecordResult.fallback := by
  have hguard := validUUID_guard_false u hu
  have hrow : matchesTriple u v ty ⟨u, v, ty, p1, t1⟩ = true := by
    simp [matchesTriple]
  have hins1 :
      dbInsertInteraction true authUsers videos table ⟨u, v, ty, p1, t1⟩
        = .ok (table ++ [⟨u, v, ty, p1, t1⟩]) :=
    dbInsertInteraction_ok_of authUsers videos table ⟨u, v, ty, p1, t1⟩
      hpu hpv hlen hreg hvid hnew
  have hstep1 :
      recordInteraction true authUsers videos table u v ty p1 rng1 t1
        = (table ++ [⟨u, v, ty, p1, t1⟩], .row ⟨u, v, ty, p1, t1⟩) := by
    unfold recordInteraction
    rw [hguard]
    simp only [if_false, Bool.false_eq_true]
    rw [hins1]
  have htrip2 : hasTriple (table ++ [⟨u, v, ty, p1, t1⟩]) u v ty = true := by
    unfold hasTriple
    rw [List.any_append]
    simp [hrow]
  have hins2 :
      dbInsertInteraction true authUsers videos
          (table ++ [⟨u, v, ty, p1, t1⟩]) ⟨u, v, ty, p2, t2⟩
        = .error "duplicate key value violates unique constraint" :=
    dbInsertInteraction_dup_of authUsers videos
      (table ++ [⟨u, v, ty, p1, t1⟩]) ⟨u, v, ty, p2, t2⟩
      hpu hpv hlen hreg hvid htrip2
  have hstep2 :
      recordInteraction true authUsers videos
          (table ++ [⟨u, v, ty, p1, t1⟩]) u v ty p2 rng2 t2
        = (table ++ [⟨u, v, ty, p1, t1⟩], .fallback) := by
    unfold recordInteraction
    rw [hguard]
    simp only [if_false, Bool.false_eq_true]
    rw [hins2]
  have hfil : table.filter (matchesTriple u v ty) = [] := by
    rw [List.filter_eq_nil_iff]
    intro a ha hpa
    have hany : table.any (matchesTriple u v ty) = true :=
      List.any_eq_true.mpr ⟨a, ha, hpa⟩
    unfold hasTriple at hnew
    rw [hnew] at hany
    cases hany
  rw [hstep1]
  simp only [hstep2]
  constructor
  · unfold rowsForTriple
    rw [List.filter_append, hfil]
    simp [hrow]
  · trivial

/-- C1 witness: the amended theorem at the concrete registered identity
`00000000-0000-4000-8000-000000000000`, existing video
`11111111-1111-1111-1111-111111111111`, type `like`, payloads `p1` then
`p2`, starting from the empty table. -/
theorem recordInteraction_no_duplicate_first_payload_witness :
    isValidUUID "00000000-0000-4000-8000-000000000000" = true ∧
    hasTriple [] "00000000-0000-4000-8000-000000000000"
      "11111111-1111-1111-1111-111111111111" "like" = false ∧
    (recordInteraction true ["00000000-0000-4000-8000-000000000000"]
        ["11111111-1111-1111-1111-111111111111"]
        ((recordInteraction true ["00000000-0000-4000-8000-000000000000"]
            ["11111111-1111-1111-1111-111111111111"] []
            "00000000-0000-4000-8000-000000000000"
            "11111111-1111-1111-1111-111111111111" "like" "p1" [] 1).1)
        "00000000-0000-4000-8000-000000000000"
        "11111111-1111-1111-1111-111111111111" "like" "p2" [] 2).2
      = RecordResult.fallback :=
  ⟨by decide, by decide,
   (recordInteraction_no_duplicate_first_payload
      ["00000000-0000-4000-8000-000000000000"]
      ["11111111-1111-1111-1111-111111111111"] []
      "00000000-0000-4000-8000-000000000000"
      "11111111-1111-1111-1111-111111111111" "like" "p1" "p2" [] [] 1 2
      (by decide) (by decide) (by decide) (by decide) (by decide) (by decide)
      (by decide)).2⟩

/-! ### Claim C2 — anonymous identity stability -/

/-- C2 (code bug): the anonymous identity used for interaction
recording is NOT generated once and cached for the session.  The client
sends the constant `anonymous-user`, and `recordInteraction` replaces
it by calling `generateAnonymousUserId` afresh on EVERY call — the
function draws from `Math.random` and keeps no session cache, despite
its own documentation ("Generate a consistent anonymous user ID for the
session").  Two sequential calls whose random nibble draws are all-0
and all-1 return two different UUID-shaped ids, so the two interactions
of one anonymous session are attributed to two different identities. -/
theorem anonymousUserId_not_cached :
    generateAnonymousUserId (List.replicate 31 0)
        = "00000000-0000-4000-8000-000000000000" ∧
    generateAnonymousUserId (List.replicate 31 1)
        = "11111111-1111-4111-9111-111111111111" ∧
    generateAnonymousUserId (List.replicate 31 0)
        ≠ generateAnonymousUserId (List.replicate 31 1) := by decide

/-! ### Claim C6 — interaction recording never hard-fails -/

/-- C6: for every well-formed `POST /api/interactions` request (all of
`userId`, `videoId`, `type` present), the endpoint responds
`200 \x7b success: true \x7d` regardless of whether the backing store is
reachable or the insert errors: `recordInteraction` swallows every
store error into the MVP fallback object and the route handler returns
success in both its try and catch branches. -/
theorem postInteractions_never_fails (avail : Bool)
    (authUsers videos : List String) (table : List InteractionRow)
    (u v ty d : String) (rng : List Nat) (now : Nat)
    (hu : u ≠ "") (hv : v ≠ "") (hty : ty ≠ "") :
    (postInteractions avail authUsers videos table u v ty d rng now).2
      = ⟨200, true⟩ := by
  have hu2 : (u == "") = false := by
    rcases h : u == "" with _ | _
    · rfl
    · exact absurd (by simpa using h) hu
  have hv2 : (v == "") = false := by
    rcases h : v == "" with _ | _
    · rfl
    · exact absurd (by simpa using h) hv
  have hty2 : (ty == "") = false := by
    rcases h : ty == "" with _ | _
    · rfl
    · exact absurd (by simpa using h) hty
  unfold postInteractions
  rw [hu2, hv2, hty2]
  rfl

/-- C6 witness: a like on video `v1` by user `u1` with the store
unreachable still yields `200 \x7b success: true \x7d`. -/
theorem postInteractions_never_fails_witness :
    (postInteractions false [] [] [] "u1" "v1" "like" "d" [] 0).2
      = ⟨200, true⟩ :=
  postInteractions_never_fails false [] [] [] "u1" "v1" "like" "d" [] 0
    (by decide) (by decide) (by decide)

/-! ### Claim C7 — feedback validation -/

/-- C7 counterexample: a feedback form with exactly one non-empty
answer (`whatDidYouSee = "saw a cat"`, `whyDidYouReact` empty) is
BLOCKED by `FeedbackModal.handleSubmit` before any network call, and
the server route likewise rejects a one-answer body with 400 — the
claim that one non-empty answer suffices is false: both questions are
required. -/
theorem feedback_one_answer_counterexample :
    feedbackModalSubmit "v1" ⟨"saw a cat", ""⟩ "t0" none = .blocked ∧
    jsTrim "saw a cat" ≠ "" ∧
    postFeedback true ⟨"v1", "saw a cat", "", "t0", none⟩ "now"
      = (⟨400, false⟩, none) := by decide

/-- C7 (amended): feedback submission requires EVERY answer field
non-empty: `handleSubmit` blocks client-side, before any network call
and creating no feedback record, whenever either trimmed answer is
empty (in particular for an entirely empty answers map), and performs
the network submission exactly when both answers are non-empty. -/
theorem feedbackModalSubmit_requires_both (videoId now : String)
    (f : FeedbackForm) (au : Option String) :
    (jsTrim f.whatDidYouSee = "" ∨ jsTrim f.whyDidYouReact = "" →
      feedbackModalSubmit videoId f now au = .blocked) ∧
    (jsTrim f.whatDidYouSee ≠ "" → jsTrim f.whyDidYouReact ≠ "" →
      feedbackModalSubmit videoId f now au
        = .submitted ⟨videoId, f.whatDidYouSee, f.whyDidYouReact, now, au⟩) := by
  constructor
  · intro h
    unfold feedbackModalSubmit
    rw [if_pos]
    rcases h with h | h
    · simp [h]
    · simp [h]
  · intro h1 h2
    unfold feedbackModalSubmit
    rw [if_neg]
    simp [h1, h2]

/-- C7 witness: the amended theorem at the entirely empty answers map
(blocked) and at a fully answered form (submitted). -/
theorem feedbackModalSubmit_requires_both_witness :
    feedbackModalSubmit "v1" ⟨"", ""⟩ "t0" none = .blocked ∧
    feedbackModalSubmit "v1" ⟨"a", "b"⟩ "t0" none
      = .submitted ⟨"v1", "a", "b", "t0", none⟩ :=
  ⟨(feedbackModalSubmit_requires_both "v1" "t0" ⟨"", ""⟩ none).1
     (Or.inl (by decide)),
   (feedbackModalSubmit_requires_both "v1" "t0" ⟨"a", "b"⟩ none).2
     (by decide) (by decide)⟩

/-! ### Claim C8 — degraded feed fallback -/

/-- C8 counterexample: with the video fetch failing, `GET /api/videos`
at `offset = 5, limit = 10` returns the EMPTY list (the fallback is
`mockVideos.slice(offset, offset + limit)` over a 5-element constant
list), so the degraded response is not of length at least 1 for every
offset and limit as the claim states. -/
theorem getVideos_fallback_counterexample :
    (getVideos (.error "fetch failed") 10 5).videos.length = 0 ∧
    (getVideos (.error "fetch failed") 10 5).fallback = true := by decide

/-- C8 (amended): when the video fetch errors, `GET /api/videos` never
propagates the error: it responds `success: true` with the
`fallback: true` marker (the repo's degraded-content flag) and the
built-in 5-video placeholder list sliced by offset/limit — which is
non-empty only when `offset < 5` (and `limit ≥ 1`). -/
theorem getVideos_fallback_degrades (e : String) (limit offset : Nat) :
    (getVideos (.error e) limit offset).success = true ∧
    (getVideos (.error e) limit offset).fallback = true ∧
    (getVideos (.error e) limit offset).videos
      = jsSlice mockVideos offset (offset + limit) ∧
    (offset < 5 → 1 ≤ limit → (getVideos (.error e) limit offset).videos ≠ []) := by
  refine ⟨rfl, rfl, rfl, fun ho hl => ?_⟩
  have hlen : (jsSlice mockVideos offset (offset + limit)).length
      = min (offset + limit - offset) (mockVideos.length - offset) := by
    unfold jsSlice
    rw [List.length_take, List.length_drop]
  have hmock : mockVideos.length = 5 := by decide
  apply List.ne_nil_of_length_pos
  show 0 < (jsSlice mockVideos offset (offset + limit)).length
  rw [hlen, hmock]
  omega

/-- C8 witness: the amended theorem at `offset = 0, limit = 10` — the
degraded response is flagged and non-empty. -/
theorem getVideos_fallback_degrades_witness :
    (getVideos (.error "db down") 10 0).fallback = true ∧
    (getVideos (.error "db down") 10 0).videos ≠ [] :=
  ⟨(getVideos_fallback_degrades "db down" 10 0).2.1,
   (getVideos_fallback_degrades "db down" 10 0).2.2.2 (by decide) (by decide)⟩

/-! ### Claim C9 — end-to-end scenario -/

/-- C9 counterexample: running the spec's exact scenario (right swipe on
V1, left swipe on V2, up swipes on V3–V5, cadence N=5) does NOT fire
the feedback prompt: up swipes call `goToNextVideo()` without
`onVideoReaction`, so `onVideoWatched` never runs for them; only the two
reaction swipes count, the watched counter ends at 2, and neither
`showFeedback` is raised nor target video V5 selected. -/
theorem runScenario_counterexample :
    (runScenario 5).home.videosWatched = 2 ∧
    (runScenario 5).home.showFeedback = false ∧
    (runScenario 5).home.feedbackVideo ≠ some "V5" := by decide

/-- C9 (amended): in the scenario the right swipe on V1 emits a `like`
reaction event for V1 and counts it watched, the left swipe on V2 emits
a `dislike` event and counts it watched, and the up swipes on V3–V5
classify as next, emit no reaction event and do not count as consumed;
after the five gestures the session has exactly the two reaction events,
a watched count of 2, and no feedback prompt (none fires until the 5th
reaction-carrying interaction). -/
theorem runScenario_two_watched_no_feedback :
    (runScenario 5).events = [("V1", "like"), ("V2", "dislike")] ∧
    (runScenario 5).home.videosWatched = 2 ∧
    (runScenario 5).home.showFeedback = false ∧
    (runScenario 5).home.feedbackVideo = none := by decide

/-! ### Claim C10 — feedback identity is constant -/

/-- C10: every feedback row created through `POST /api/feedback` is
stored with the constant `user_id = 'anonymous-user'`, whatever the
request (including when an authenticated user exists on the session —
the handler hard-codes the identity and the modal transmits none). -/
theorem postFeedback_identity_constant (avail : Bool)
    (req : FeedbackRequest) (now : String) (row : FeedbackRow)
    (h : (postFeedback avail req now).2 = some row) :
    row.user_id = "anonymous-user" := by
  unfold postFeedback at h
  by_cases hv : (req.whatDidYouSee == "" || req.whyDidYouReact == "") = true
  · rw [if_pos hv] at h
    cases h
  · rw [if_neg hv] at h
    cases avail
    · simp at h
    · simp at h
      rw [← h]

/-- C10 witness: a fully answered request on a session with the
authenticated user `auth-user-1` still stores its feedback row under
`anonymous-user`. -/
theorem postFeedback_identity_constant_witness :
    FeedbackRow.user_id ⟨"v1", "anonymous-user", "a", "b", "t0"⟩
      = "anonymous-user" :=
  postFeedback_identity_constant true
    ⟨"v1", "a", "b", "t0", some "auth-user-1"⟩ "now"
    ⟨"v1", "anonymous-user", "a", "b", "t0"⟩ (by decide)
